import Mathlib

/-!
Verification development for the freecad-transportation-wb workbench.

The repository is a set of FreeCAD command handlers.  Each handler reads the
host selection, validates it, and performs a short sequence of host API calls
(add geometry, add constraint, move point, recompute).  We embed the handlers
shallowly: each handler becomes a Lean function from an explicit world (the
data the host would supply: current selection, sketch constraints, results of
SketchElement queries) to the list of host API events the handler performs.
Host exceptions that the Python code would raise (KeyError, TypeError,
AttributeError, IndexError) are embedded as a terminal raise event carrying
the exception kind, since such an exception aborts the handler and returns
control to the host.
-/

/-- A host API event performed by a command handler.  The mutation events are
the direct document mutations named by the specification (addGeometry,
addConstraint, delConstraint, movePoint, addObject, newObject); the remaining
events are host interactions that do not change the document. -/
inductive Ev where
  | addGeometry (construction : Bool)
  | addConstraint
  | delConstraint (idx : Nat)
  | movePoint
  | addObject (typeId : String) (name : String)
  | newObject
  | recompute
  | notify (tag : String)
  | printMsg (msg : String)
  | showDialog
  | modalDialog (title : String) (text : String)
  | externalCall (name : String)
  | raiseExc (msg : String)
deriving DecidableEq

/-- True for the document-mutating host calls listed by the specification. -/
def isMutation : Ev → Bool
  | Ev.addGeometry _ => true
  | Ev.addConstraint => true
  | Ev.delConstraint _ => true
  | Ev.movePoint => true
  | Ev.addObject _ _ => true
  | Ev.newObject => true
  | _ => false

/-- True exactly for the recompute event. -/
def isRecompute : Ev → Bool
  | Ev.recompute => true
  | _ => false

/-- True exactly for a modal error-dialog notification event. -/
def isNotify : Ev → Bool
  | Ev.notify _ => true
  | _ => false

/-- True exactly for a printed message event. -/
def isPrint : Ev → Bool
  | Ev.printMsg _ => true
  | _ => false

/-- The document mutations contained in a trace. -/
def muts (tr : List Ev) : List Ev := tr.filter isMutation

/-- The modal error notifications contained in a trace. -/
def notifies (tr : List Ev) : List Ev := tr.filter isNotify

/-- Every document mutation in the trace is followed, later in the trace, by a
recompute event. -/
def allRec : List Ev → Bool
  | [] => true
  | e :: rest => (!(isMutation e) || rest.any isRecompute) && allRec rest

lemma muts_nil_of_no_mutation {tr : List Ev} (h : ∀ e ∈ tr, isMutation e = false) :
    muts tr = [] := by
  simp only [muts, List.filter_eq_nil_iff]
  intro e he
  simp [h e he]

lemma notifies_nil_of_no_notify {tr : List Ev} (h : ∀ e ∈ tr, isNotify e = false) :
    notifies tr = [] := by
  simp only [notifies, List.filter_eq_nil_iff]
  intro e he
  simp [h e he]

lemma allRec_of_no_mutation {tr : List Ev} (h : ∀ e ∈ tr, isMutation e = false) :
    allRec tr = true := by
  induction tr with
  | nil => rfl
  | cons e rest ih =>
      simp only [allRec, Bool.and_eq_true, Bool.or_eq_true, Bool.not_eq_true']
      exact ⟨Or.inl (h e (by simp)), ih (fun e' he' => h e' (by simp [he']))⟩

lemma allRec_append_left_nonmut {xs ys : List Ev}
    (hx : ∀ e ∈ xs, isMutation e = false) (hy : allRec ys = true) :
    allRec (xs ++ ys) = true := by
  induction xs with
  | nil => simpa using hy
  | cons e rest ih =>
      simp only [List.cons_append, allRec, Bool.and_eq_true, Bool.or_eq_true,
        Bool.not_eq_true']
      refine ⟨Or.inl (hx e (by simp)), ih (fun e' he' => hx e' (by simp [he']))⟩

lemma allRec_append_recompute {xs ys : List Ev}
    (hmem : Ev.recompute ∈ ys) (hy : allRec ys = true) :
    allRec (xs ++ ys) = true := by
  induction xs with
  | nil => simpa using hy
  | cons e rest ih =>
      simp only [List.cons_append, allRec, Bool.and_eq_true, Bool.or_eq_true,
        Bool.not_eq_true']
      refine ⟨Or.inr ?_, ih⟩
      have : Ev.recompute ∈ rest ++ ys := List.mem_append_right _ hmem
      exact List.any_eq_true.mpr ⟨Ev.recompute, this, rfl⟩

lemma allRec_append {xs ys : List Ev} (hx : allRec xs = true) (hy : allRec ys = true) :
    allRec (xs ++ ys) = true := by
  induction xs with
  | nil => simpa using hy
  | cons e rest ih =>
      simp only [allRec, Bool.and_eq_true, Bool.or_eq_true, Bool.not_eq_true'] at hx
      simp only [List.cons_append, allRec, Bool.and_eq_true, Bool.or_eq_true,
        Bool.not_eq_true']
      refine ⟨?_, ih hx.2⟩
      rcases hx.1 with h | h
      · exact Or.inl h
      · rcases List.any_eq_true.mp h with ⟨e', he', hrec⟩
        exact Or.inr (List.any_eq_true.mpr ⟨e', List.mem_append_left _ he', hrec⟩)

lemma allRec_append_right_nonmut {xs ys : List Ev}
    (hx : allRec xs = true) (hy : ∀ e ∈ ys, isMutation e = false) :
    allRec (xs ++ ys) = true := by
  induction xs with
  | nil => simpa using allRec_of_no_mutation hy
  | cons e rest ih =>
      simp only [allRec, Bool.and_eq_true, Bool.or_eq_true, Bool.not_eq_true'] at hx
      simp only [List.cons_append, allRec, Bool.and_eq_true, Bool.or_eq_true,
        Bool.not_eq_true']
      refine ⟨?_, ih hx.2⟩
      rcases hx.1 with h | h
      · exact Or.inl h
      · rcases List.any_eq_true.mp h with ⟨e', he', hrec⟩
        exact Or.inr (List.any_eq_true.mpr ⟨e', List.mem_append_left _ he', hrec⟩)

/-! ## InsertCurve._sort_vectors (src/InsertCurve.py lines 181-198)

The host vector type (App.Vector) is embedded with rational coordinates; the
z component of the cross product is the only arithmetic the function uses. -/

/-- A host 3d vector. -/
structure Vec3 where
  x : ℚ
  y : ℚ
  z : ℚ
deriving DecidableEq

/-- The host cross product of two vectors. -/
def cross (a b : Vec3) : Vec3 :=
  ⟨a.y * b.z - a.z * b.y, a.z * b.x - a.x * b.z, a.x * b.y - a.y * b.x⟩

/-- InsertCurve._sort_vectors: takes the pair (vectors[0], vectors[1]) and
returns [vec1, vec0] when the z component of vec0.cross(vectors[1]) is
strictly positive, and [vec0, vec1] otherwise. -/
def sort_vectors (vectors : Vec3 × Vec3) : Vec3 × Vec3 :=
  let vec0 := vectors.1
  let vec1 := vectors.2
  let cross_product := cross vec0 vectors.2
  if cross_product.z > 0 then (vec1, vec0) else (vec0, vec1)

lemma cross_z_antisymm (a b : Vec3) : (cross b a).z = -(cross a b).z := by
  simp only [cross]
  ring

/-! ## GenerateLoft._validate_tree (src/transportationwb/corridor/loft/GenerateLoft.py lines 55-70)

The host document is embedded as a list of typed, named objects together with
a counter supplying fresh internal ids.  The host call
App.ActiveDocument.findObjects(t, n) returns the objects of type t named n;
App.ActiveDocument.addObject(t, n) appends a fresh object of type t named n. -/

/-- A host document object: its TypeId, its Name, and a host-internal id. -/
structure DocObject where
  typeId : String
  name : String
  oid : Nat
deriving DecidableEq

/-- A host document: its object list and the next fresh host id. -/
structure Doc where
  objects : List DocObject
  nextId : Nat
deriving DecidableEq

/-- Host findObjects: the document objects with the given TypeId and Name. -/
def findObjects (d : Doc) (t n : String) : List DocObject :=
  d.objects.filter (fun o => o.typeId == t && o.name == n)

/-- Host addObject: appends a fresh object of the given TypeId and Name. -/
def docAddObject (d : Doc) (t n : String) : Doc × DocObject :=
  let o : DocObject := ⟨t, n, d.nextId⟩
  (⟨d.objects ++ [o], d.nextId + 1⟩, o)

/-- GenerateLoft._validate_tree: looks for a Lofts document group; when none
exists, adds one and recomputes; otherwise returns the first one found.
Returns the updated document, the group object, and the events performed. -/
def validate_tree (d : Doc) : Doc × DocObject × List Ev :=
  let parent := findObjects d "App::DocumentObjectGroup" "Lofts"
  match parent with
  | [] =>
      let r := docAddObject d "App::DocumentObjectGroup" "Lofts"
      (r.1, r.2, [Ev.addObject "App::DocumentObjectGroup" "Lofts", Ev.recompute])
  | p :: _ => (d, p, [])

/-! ## InsertCurve._notify_error (src/InsertCurve.py lines 704-730)

The Python string literals use backslash line continuation, so the message
text contains the twelve leading spaces of each continuation line. -/

/-- The modal critical dialog opened by InsertCurve._notify_error. -/
structure ErrorDialog where
  title : String
  message : String
deriving DecidableEq

/-- Fixed text of the Selection error. -/
def selectionMsg : String :=
  "Select two adjacent back tangents, two adjacent curves,             or an adjacent back tangent and curve to place curve."

/-- Fixed text of the Attached Geometry error. -/
def attachedGeometryMsg : String := "Selected elements have attached arc."

/-- Fixed text of the Invalid Geometry error. -/
def invalidGeometryMsg : String :=
  "Selected elements have incorrect geometry.             Select either line segments or arcs.  Line segments must be             construction mode."

/-- Fixed text of the Invalid Constraint error. -/
def invalidConstraintMsg : String := "Selected geometry are not properly constrained."

/-- Fixed text of the Not Coincident error. -/
def notCoincidentMsg : String := "Selected geometry do not intersect."

/-- Fixed text of the No Arc error. -/
def noArcMsg : String := "Expected an arc to be selected."

/-- InsertCurve._notify_error: the title is the tag followed by the word Error
and the message is selected by the if-elif chain, defaulting to UNDEFINED
ERROR. -/
def notify_error (error_type : String) : ErrorDialog :=
  let title := error_type ++ " Error"
  let message :=
    if error_type = "Selection" then selectionMsg
    else if error_type = "Attached Geometry" then attachedGeometryMsg
    else if error_type = "Invalid Geometry" then invalidGeometryMsg
    else if error_type = "Invalid Constraint" then invalidConstraintMsg
    else if error_type = "Not Coincident" then notCoincidentMsg
    else if error_type = "No Arc" then noArcMsg
    else "UNDEFINED ERROR"
  ⟨title, message⟩

/-! ## ImportTask.examine_file (src/transportationwb/corridor/alignment/tasks/ImportTask.py lines 116-159)

The task form holds the filename line edit, the delimiter line edit and the
headers checkbox.  Opening the file is embedded through a canOpen oracle.
When the open fails the code shows a modal critical dialog and returns.  When
the open succeeds, line 140 evaluates stream(1024): stream is the file object
returned by open, and calling it raises TypeError before the sniffer runs, so
lines 143-155 (setting the delimiter and the headers checkbox) are
unreachable. -/

/-- The fields of the import task form the function reads and writes. -/
structure ImportForm where
  filename : String
  delimiter : String
  headersChecked : Bool
deriving DecidableEq

/-- ImportTask.examine_file: returns the (possibly updated) form and the
events performed. -/
def examine_file (canOpen : String → Bool) (form : ImportForm) : ImportForm × List Ev :=
  let file_path := form.filename
  if canOpen file_path = false then
    (form, [Ev.modalDialog "Unable to open file " file_path])
  else
    (form, [Ev.raiseExc "TypeError: TextIOWrapper object is not callable"])

/-! ## GenerateLoft.Activated (src/transportationwb/corridor/loft/GenerateLoft.py lines 72-125)

A pre-selected object carries only its TypeId; the Alignments and Templates
folder contents are supplied as lists; whether the document has a Lofts group
(accessed as App.ActiveDocument.Lofts on line 118) is a boolean of the world.
LoftGroup.createLoftGroup is a module of this repository that is not under
src. Modelled from the spec: each handler performs a short sequence of host
API calls (add geometry, add constraint, move point, recompute), so
createLoftGroup is embedded as the single addObject host call that creates
the loft group object. -/

/-- A pre-selected host object as GenerateLoft.Activated sees it. -/
structure LoftObj where
  typeId : String
  oid : Nat
deriving DecidableEq

/-- The error text printed on an invalid pre-selection. -/
def loftErrorMsg : String :=
  "Invalid object type found.  Select a spline and sketch to perform loft"

/-- True when the object would make GenerateLoft.Activated return early. -/
def loftInvalidType (o : LoftObj) : Bool :=
  !(o.typeId == "Part::Part2DObjectPython" || o.typeId == "Sketcher::SketchObjectPython")

/-- The pre-selection loop of GenerateLoft.Activated (lines 80-89): walks the
selection accumulating the alignment and template lists, returning none on
the first object of any other TypeId (the handler prints and returns). -/
def generateLoftSelect : List LoftObj → List LoftObj → List LoftObj →
    Option (List LoftObj × List LoftObj)
  | [], aligns, temps => some (aligns, temps)
  | o :: rest, aligns, temps =>
      if loftInvalidType o then none
      else if o.typeId == "Part::Part2DObjectPython" then
        generateLoftSelect rest (aligns ++ [o]) temps
      else
        generateLoftSelect rest aligns (temps ++ [o])

/-- GenerateLoft.Activated: classifies the pre-selection, appends the folder
contents, then shows the loft dialog and creates and regenerates the loft
group.  Returns the events performed and, for runs that pass the selection
check, the populated alignment and template lists. -/
def generateLoftActivated (sel alignFolder templateFolder : List LoftObj)
    (loftsExists : Bool) : List Ev × Option (List LoftObj × List LoftObj) :=
  match generateLoftSelect sel [] [] with
  | none => ([Ev.printMsg loftErrorMsg], none)
  | some (aligns, temps) =>
      let align_list := aligns ++ alignFolder
      let template_list := temps ++ templateFolder
      if loftsExists = false then
        ([Ev.showDialog, Ev.raiseExc "AttributeError: Lofts"],
          some (align_list, template_list))
      else
        ([Ev.showDialog, Ev.addObject "App::DocumentObjectGroup" "LoftGroup",
            Ev.externalCall "regenerate", Ev.recompute],
          some (align_list, template_list))

/-! ## box_culvert_tools.add_1_cell_box (src/transportationwb/drainage/box_culvert_tools.py lines 69-111)

The handler first adds the BoxCulvert1Cell group object (line 75), and only
then validates the selection: an empty selection or a selection whose first
object does not carry a Proxy of Type Alignment prints an error and returns
with the group object still in the document.  A selected Alignment whose
Group list is empty raises IndexError at line 94.  The happy path attaches
and orients the profile, recomputes, and sweeps. -/

/-- A selected host object as add_1_cell_box sees it: the Type of its Proxy
when it has one, and its Group list. -/
structure BoxSelObj where
  proxyType : Option String
  group : List Nat
deriving DecidableEq

/-- box_culvert_tools.add_1_cell_box: returns the events performed. -/
def add_1_cell_box (sel : List BoxSelObj) : List Ev :=
  Ev.addObject "App::DocumentObjectGroupPython" "BoxCulvert1Cell" ::
    (match sel with
     | [] => [Ev.printMsg "No alignment selected"]
     | s0 :: _ =>
        match s0.proxyType with
        | some t =>
            if t == "Alignment" then
              match s0.group with
              | [] => [Ev.raiseExc "IndexError: Group list index out of range"]
              | _ :: _ =>
                  [Ev.externalCall "attach_sketch", Ev.externalCall "orient_profile",
                    Ev.recompute, Ev.externalCall "sweep_sketch"]
            else [Ev.printMsg "Invalid selection for sweep"]
        | none => [Ev.printMsg "Invalid selection for sweep"])

/-- True when add_1_cell_box reaches the sweep: a nonempty selection whose
first object has a Proxy of Type Alignment and a nonempty Group. -/
def boxCompletes : List BoxSelObj → Bool
  | [] => false
  | s0 :: _ =>
      match s0.proxyType with
      | some t => t == "Alignment" && !s0.group.isEmpty
      | none => false

/-! ## InsertCurve (src/InsertCurve.py)

Sketch geometry selected inside the sketch is embedded as its element type
(Part.LineSegment, Part.ArcOfCircle or anything else), its construction flag
and its geometry index.  Sketcher constraints are embedded by their Type
string and their First and Second geometry indices.  The geometry dictionary
geo_dict that Activated threads through its helpers is embedded as a
string-keyed association list whose values are the optional geometry index
of the stored element (None becomes none); a lookup of an absent key is a
Python KeyError.  SketchElement queries whose module is not under src
(is_coincident, match_attached_geometry, match_by_vertex,
get_binding_constraint) are supplied by the world. -/

/-- The element type of a selected sketch geometry. -/
inductive GeoType where
  | lineSegment
  | arcOfCircle
  | other
deriving DecidableEq

/-- A sketch geometry element: type, construction flag, geometry index. -/
structure SGeo where
  gtype : GeoType
  construction : Bool
  index : Nat
deriving DecidableEq

/-- A Sketcher constraint: its Type string and the two geometry indices. -/
structure CInfo where
  ctype : String
  first : Int
  second : Int
deriving DecidableEq

/-- An item returned by SketchElement.match_by_vertex: a constraint or an
adjacent geometry, with its index. -/
structure AttachedItem where
  isConstraint : Bool
  index : Nat
deriving DecidableEq

/-- The Python dict geo_dict: string keys, values the optional geometry index
of the stored element (a stored None is none). -/
abbrev GeoDict := List (String × Option Nat)

/-- Python dict assignment d[k] = v. -/
def dset (d : GeoDict) (k : String) (v : Option Nat) : GeoDict := (k, v) :: d

/-- Python dict lookup d[k]: none is a KeyError. -/
def dget (d : GeoDict) (k : String) : Option (Option Nat) :=
  (d.find? (fun p => p.1 == k)).map Prod.snd

/-- Python dict membership test d.has_key(k). -/
def hasKey (d : GeoDict) (k : String) : Bool := (dget d k).isSome

/-- The world an InsertCurve.Activated invocation runs against. -/
structure ICWorld where
  /-- Gui.Selection.getSelection() is nonempty (line 44). -/
  objectSelected : Bool
  /-- GeoUtils.get_selection(sketch): the geometry selected in the sketch. -/
  selection : List SGeo
  /-- sketch.Constraints. -/
  constraints : List CInfo
  /-- elem.is_coincident(otherIndex), keyed by the two geometry indices. -/
  coincident : Nat → Nat → Bool
  /-- selection[0].match_attached_geometry() in the two-tangent validation. -/
  lineAttached : List SGeo
  /-- arc.match_attached_geometry() in _get_tangents. -/
  arcAttached : List SGeo
  /-- FirstPos of the binding constraint found by get_binding_constraint. -/
  bindingFirstPos : Nat
  /-- SecondPos of the binding constraint. -/
  bindingSecondPos : Nat
  /-- arc.match_by_vertex(arc_vertex) in _delete_constraints. -/
  vertexAttached : List AttachedItem
  /-- The geometry index the host assigns to the new back tangent. -/
  newTangentIndex : Nat

/-- The element-checking loop of _validate_selection_geometry (lines 666-687):
returns the final valid_geo and is_two_lines flags, breaking on the first
invalid element. -/
def validate_geometry_loop : List SGeo → Option GeoType → Bool → Bool × Bool
  | [], _, is_two_lines => (true, is_two_lines)
  | g :: rest, last_type, is_two_lines =>
      match g.gtype with
      | GeoType.lineSegment =>
          if g.construction then
            validate_geometry_loop rest (some GeoType.lineSegment) is_two_lines
          else (false, is_two_lines)
      | GeoType.arcOfCircle =>
          if last_type ≠ some GeoType.arcOfCircle then
            validate_geometry_loop rest (some GeoType.arcOfCircle) false
          else (false, false)
      | GeoType.other => (false, is_two_lines)

/-- InsertCurve._validate_selection_geometry (lines 641-702): returns the
valid_geo flag and the dialog events emitted.  An empty selection is valid; a
selection of any other size than two notifies Selection and is invalid;
otherwise the element loop runs, and for two coincident line segments the
attached-geometry scan may notify Attached Geometry, after which line 700
unconditionally resets valid_geo to True. -/
def validate_selection_geometry (w : ICWorld) (selection : List SGeo) :
    Bool × List Ev :=
  if selection.length = 0 then (true, [])
  else if selection.length ≠ 2 then (false, [Ev.notify "Selection"])
  else
    let r := validate_geometry_loop selection none true
    if r.1 = true ∧ r.2 = true then
      match selection with
      | s0 :: s1 :: _ =>
          if w.coincident s0.index s1.index then
            if w.lineAttached.any (fun g => g.gtype == GeoType.arcOfCircle) then
              (true, [Ev.notify "Attached Geometry"])
            else (true, [])
          else (r.1, [])
      | _ => (r.1, [])
    else (r.1, [])

/-- InsertCurve._validate_selection_constraints (lines 599-639): filters the
sketch constraints by type; Tangent is valid unless two back tangents are
selected, Coincident and PointOnObject are valid only then.  Reading
selection[0] and selection[1] of a shorter selection is an IndexError. -/
def validate_selection_constraints (selection : List SGeo)
    (constraints : List CInfo) : Except String (List (Nat × CInfo)) :=
  match selection with
  | s0 :: s1 :: _ =>
      let two_back_tangents :=
        s0.gtype == GeoType.lineSegment && s1.gtype == GeoType.lineSegment
      Except.ok (constraints.enum.filter (fun ic =>
        (ic.2.ctype == "Tangent" && !two_back_tangents) ||
          ((ic.2.ctype == "Coincident" || ic.2.ctype == "PointOnObject")
            && two_back_tangents)))
  | _ => Except.error "IndexError: selection list index out of range"

/-- The inner connection loop of _validate_selection_bindings (lines 582-589):
are_connected ends true when every selected element is the First or Second of
the constraint; an empty selection leaves it false. -/
def binds_selection (c : CInfo) (selection : List SGeo) : Bool :=
  match selection with
  | [] => false
  | _ :: _ =>
      selection.all (fun s => c.first == (s.index : Int) || c.second == (s.index : Int))

/-- InsertCurve._validate_selection_bindings (lines 563-597): returns the
first constraint that binds every selected element, as a one-element list, or
the empty list. -/
def validate_selection_bindings (selection : List SGeo)
    (constraints : List (Nat × CInfo)) : List (Nat × CInfo) :=
  match constraints.find? (fun ic => binds_selection ic.2 selection) with
  | some ic => [ic]
  | none => []

/-- InsertCurve._validate_selection (lines 527-561): geometry check (notifying
Invalid Geometry on failure), then constraint-type check and binding check
(each notifying Invalid Constraint on an empty result).  Returns whether the
selection validated and the events emitted. -/
def validate_selection (w : ICWorld) : Bool × List Ev :=
  let g := validate_selection_geometry w w.selection
  if g.1 = false then (false, g.2 ++ [Ev.notify "Invalid Geometry"])
  else
    match validate_selection_constraints w.selection w.constraints with
    | Except.error e => (false, g.2 ++ [Ev.raiseExc e])
    | Except.ok clist =>
        if clist.isEmpty then (false, g.2 ++ [Ev.notify "Invalid Constraint"])
        else if (validate_selection_bindings w.selection clist).isEmpty then
          (false, g.2 ++ [Ev.notify "Invalid Constraint"])
        else (true, g.2)

/-- One iteration of the sorting loop of _get_tangents (lines 499-507). -/
def tangentStep (d : GeoDict) (s : SGeo) : GeoDict :=
  if s.gtype == GeoType.arcOfCircle then dset d "arc" (some s.index)
  else if dget d "start_tangent" = some none then dset d "start_tangent" (some s.index)
  else dset d "end_tangent" (some s.index)

/-- InsertCurve._get_tangents (lines 482-525): initialises the dictionary,
sorts the selection into arc, start_tangent and end_tangent, and when an arc
was selected stores as end_tangent the first attached line segment whose
index differs from the start tangent. -/
def get_tangents (w : ICWorld) (selection : List SGeo) : GeoDict :=
  let init : GeoDict :=
    [("arc", none), ("start_tangent", none), ("end_tangent", none), ("constraint", none)]
  let d := selection.foldl tangentStep init
  match dget d "arc" with
  | some (some _) =>
      match dget d "start_tangent" with
      | some (some stIdx) =>
          match w.arcAttached.find? (fun g =>
              g.index != stIdx && g.gtype == GeoType.lineSegment) with
          | some g => dset d "end_tangent" (some g.index)
          | none => d
      | _ => d
  | _ => d

/-- InsertCurve._get_constrained_vertex (lines 400-416): FirstPos, or
SecondPos when FirstPos is zero, minus one. -/
def get_constrained_vertex (firstPos secondPos : Nat) : Int :=
  let result := if firstPos = 0 then secondPos else firstPos
  (result : Int) - 1

/-- The dictionary effect of _delete_constraints (lines 259-316): each
non-constraint item attached to the moved vertex is stored under the key
adjacent (the last one wins). -/
def delete_constraints_dict (w : ICWorld) (d : GeoDict) : GeoDict :=
  w.vertexAttached.foldl
    (fun d a => if a.isConstraint = false then dset d "adjacent" (some a.index) else d) d

/-- InsertCurve._get_arc_parameters together with _get_line_segments (lines
109-179 and 200-257), reduced to its dictionary accesses and events: reading
geo_dict of key arc; calling get_points on a stored None raises
AttributeError (line 128); _get_line_segments returns early for coincident
tangents without storing p_i (lines 225-226) and stores p_i otherwise (line
236); line 145 then reads geo_dict of key p_i, a KeyError when absent.  The
remaining body is host vector arithmetic that produces the arc parameters
and performs no document mutation.  Returns the updated dictionary, the
events, and whether the function completed. -/
def get_arc_parameters (w : ICWorld) (d : GeoDict) :
    GeoDict × List Ev × Bool :=
  match dget d "arc" with
  | none => (d, [Ev.raiseExc "KeyError: arc"], false)
  | some none => (d, [Ev.raiseExc "AttributeError: NoneType has no attribute get_points"], false)
  | some (some _) =>
      match dget d "start_tangent", dget d "end_tangent" with
      | some (some st), some (some et) =>
          if w.coincident st et then
            match dget d "p_i" with
            | none => (d, [Ev.raiseExc "KeyError: p_i"], false)
            | some _ => (d, [], true)
          else
            (dset d "p_i" (some 0), [], true)
      | _, _ => (d, [Ev.raiseExc "AttributeError: NoneType tangent"], false)

/-- InsertCurve._reconstrain (lines 318-362): geo_dict always has the key arc
(it may hold None), so the has_key test passes; a vertex index of -1 returns
immediately; otherwise line 340 reads geo_dict of key new_arc - a KeyError,
since Activated line 103 stored the created arc under the key new arc - and
were that key present, line 342 subscripts the method get_points without
calling it, a TypeError.  The tangent constraints built at lines 354-358 are
never added to the sketch. -/
def reconstrain (d : GeoDict) (vertex_index : Int) : List Ev :=
  if hasKey d "arc" = false then []
  else if vertex_index = -1 then []
  else
    match dget d "new_arc" with
    | none => [Ev.raiseExc "KeyError: new_arc"]
    | some _ => [Ev.raiseExc "TypeError: method object is not subscriptable"]

/-- Lines 95-107 of Activated: compute the arc parameters, create the arc,
add it to the sketch, recompute, store it under the key new arc, and call
_reconstrain. -/
def finishArc (w : ICWorld) (d : GeoDict) (vertex_index : Int) : List Ev :=
  match get_arc_parameters w d with
  | (_, evs, false) => evs
  | (d2, evs, true) =>
      evs ++ [Ev.addGeometry false, Ev.recompute] ++
        reconstrain (dset d2 "new arc" (some 0)) vertex_index

/-- Lines 58-107 of Activated, after the selection validated: build the
tangent dictionary; when an arc was selected, return silently if no opposite
back tangent was found, reject a negative constrained vertex index with the
Invalid Constraint dialog, and otherwise delete the constraints at the moved
vertex (_delete_constraints: one delConstraint per attached item, then
recompute), adjust the curve (_adjust_curve: movePoint then recompute), and
generate the new back tangent (_generate_new_back_tangent: addGeometry in
construction mode, recompute, two PointOnObject addConstraint calls,
recompute, a Tangent addConstraint, recompute), then finish with
_get_arc_parameters, addGeometry and _reconstrain. -/
def insertAfterValidation (w : ICWorld) (sel : List SGeo) : List Ev :=
  let d0 := get_tangents w sel
  match dget d0 "arc" with
  | none => [Ev.raiseExc "KeyError: arc"]
  | some none => finishArc w d0 (-1)
  | some (some _) =>
      match dget d0 "end_tangent" with
      | none => [Ev.raiseExc "KeyError: end_tangent"]
      | some none => []
      | some (some _) =>
          let d1 := dset d0 "constraint" (some 0)
          let vi := get_constrained_vertex w.bindingFirstPos w.bindingSecondPos
          if vi < 0 then [Ev.notify "Invalid Constraint"]
          else
            let d2 := delete_constraints_dict w d1
            let d3 := dset d2 "new_tangent" (some w.newTangentIndex)
            let d4 := dset d3 "end_tangent" (some w.newTangentIndex)
            (w.vertexAttached.map (fun a => Ev.delConstraint a.index) ++ [Ev.recompute])
              ++ [Ev.movePoint, Ev.recompute]
              ++ [Ev.addGeometry true, Ev.recompute, Ev.addConstraint, Ev.addConstraint,
                    Ev.recompute, Ev.addConstraint, Ev.recompute]
              ++ finishArc w d4 vi

/-- InsertCurve.Activated (lines 38-107): an empty object selection notifies
Selection and returns; then the selection is validated, and on success the
curve insertion runs. -/
def insertCurveActivated (w : ICWorld) : List Ev :=
  if w.objectSelected = false then [Ev.notify "Selection"]
  else
    let v := validate_selection w
    if v.1 = false then v.2
    else v.2 ++ insertAfterValidation w w.selection

/-- A concrete world for InsertCurve.Activated: a construction line (index 1)
and an arc (index 2) are selected, bound by a Tangent constraint; a second
line (index 5) is attached to the arc; a single constraint (index 3) is
attached to the moved vertex; the binding constraint has FirstPos 2, so the
constrained vertex index is 1. -/
def wC1 : ICWorld where
  objectSelected := true
  selection := [⟨GeoType.lineSegment, true, 1⟩, ⟨GeoType.arcOfCircle, false, 2⟩]
  constraints := [⟨"Tangent", 1, 2⟩]
  coincident := fun _ _ => false
  lineAttached := []
  arcAttached := [⟨GeoType.lineSegment, true, 5⟩]
  bindingFirstPos := 2
  bindingSecondPos := 0
  vertexAttached := [⟨true, 3⟩]
  newTangentIndex := 7

/-- The same world as wC1 except that the binding constraint has FirstPos 0
and SecondPos 0, so the constrained vertex index is negative. -/
def wC10 : ICWorld where
  objectSelected := true
  selection := [⟨GeoType.lineSegment, true, 1⟩, ⟨GeoType.arcOfCircle, false, 2⟩]
  constraints := [⟨"Tangent", 1, 2⟩]
  coincident := fun _ _ => false
  lineAttached := []
  arcAttached := [⟨GeoType.lineSegment, true, 5⟩]
  bindingFirstPos := 0
  bindingSecondPos := 0
  vertexAttached := [⟨true, 3⟩]
  newTangentIndex := 7

/-! ## Dictionary and trace lemmas -/

lemma dget_dset_self (d : GeoDict) (k : String) (v : Option Nat) :
    dget (dset d k v) k = some v := by
  simp [dget, dset, List.find?]

lemma dget_dset_ne (d : GeoDict) {k k' : String} (v : Option Nat) (h : k ≠ k') :
    dget (dset d k v) k' = dget d k' := by
  simp only [dget, dset, List.find?]
  have : ((k, v).1 == k') = false := by simpa using h
  simp [this]

lemma dget_delete_constraints_aux (l : List AttachedItem) (d : GeoDict) {k : String}
    (h : k ≠ "adjacent") :
    dget (l.foldl
      (fun d a => if a.isConstraint = false then dset d "adjacent" (some a.index) else d) d) k
      = dget d k := by
  induction l generalizing d with
  | nil => rfl
  | cons a rest ih =>
      simp only [List.foldl_cons]
      rw [ih]
      by_cases ha : a.isConstraint = false
      · simp only [ha, if_true]
        exact dget_dset_ne d (some a.index) (Ne.symm h)
      · simp [ha]

lemma dget_delete_constraints (w : ICWorld) (d : GeoDict) {k : String}
    (h : k ≠ "adjacent") :
    dget (delete_constraints_dict w d) k = dget d k := by
  unfold delete_constraints_dict
  exact dget_delete_constraints_aux w.vertexAttached d h

lemma validate_geometry_loop_false_snd (l : List SGeo) (lt : Option GeoType) :
    (validate_geometry_loop l lt false).2 = false := by
  induction l generalizing lt with
  | nil => rfl
  | cons g rest ih =>
      rcases g with ⟨gt, gc, gi⟩
      cases gt
      · simp only [validate_geometry_loop]
        split
        · exact ih _
        · rfl
      · simp only [validate_geometry_loop]
        split
        · exact ih _
        · rfl
      · rfl

lemma validate_geometry_loop_all_lines {l : List SGeo} {lt : Option GeoType}
    (h : validate_geometry_loop l lt true = (true, true)) :
    ∀ g ∈ l, g.gtype = GeoType.lineSegment ∧ g.construction = true := by
  induction l generalizing lt with
  | nil => intro g hg; cases hg
  | cons g rest ih =>
      intro g' hg'
      rcases g with ⟨gt, gc, gi⟩
      cases gt
      · cases gc
        · simp [validate_geometry_loop] at h
        · simp only [validate_geometry_loop, if_pos] at h
          rcases List.mem_cons.mp hg' with rfl | hmem
          · exact ⟨rfl, rfl⟩
          · exact ih h g' hmem
      · simp only [validate_geometry_loop] at h
        split at h
        · have hs := validate_geometry_loop_false_snd rest (some GeoType.arcOfCircle)
          rw [h] at hs
          simp at hs
        · simp at h
      · simp [validate_geometry_loop] at h

lemma tangentStep_dget_arc {s : SGeo} (d : GeoDict)
    (h : s.gtype = GeoType.lineSegment) :
    dget (tangentStep d s) "arc" = dget d "arc" := by
  unfold tangentStep
  have : (s.gtype == GeoType.arcOfCircle) = false := by simp [h]
  rw [this]
  simp only [Bool.false_eq_true, if_false]
  split
  · exact dget_dset_ne d _ (by decide)
  · exact dget_dset_ne d _ (by decide)

lemma foldl_tangentStep_arc {l : List SGeo} (d : GeoDict)
    (h : ∀ g ∈ l, g.gtype = GeoType.lineSegment) :
    dget (l.foldl tangentStep d) "arc" = dget d "arc" := by
  induction l generalizing d with
  | nil => rfl
  | cons g rest ih =>
      simp only [List.foldl_cons]
      rw [ih _ (fun g' hg' => h g' (by simp [hg']))]
      exact tangentStep_dget_arc d (h g (by simp))

lemma get_tangents_all_lines (w : ICWorld) {sel : List SGeo}
    (h : ∀ g ∈ sel, g.gtype = GeoType.lineSegment) :
    dget (get_tangents w sel) "arc" = some none := by
  unfold get_tangents
  have harc : dget (sel.foldl tangentStep
      [("arc", none), ("start_tangent", none), ("end_tangent", none), ("constraint", none)])
      "arc" = some none := by
    rw [foldl_tangentStep_arc _ h]; rfl
  simp only [harc]

/-- The events of _validate_selection_geometry: none, a single Selection
notification with an invalid result, or a single Attached Geometry
notification in the two-construction-line case. -/
lemma validate_selection_geometry_spec (w : ICWorld) (sel : List SGeo) :
    (validate_selection_geometry w sel).2 = []
    ∨ ((validate_selection_geometry w sel).2 = [Ev.notify "Selection"]
        ∧ (validate_selection_geometry w sel).1 = false)
    ∨ ((validate_selection_geometry w sel).2 = [Ev.notify "Attached Geometry"]
        ∧ ∀ g ∈ sel, g.gtype = GeoType.lineSegment ∧ g.construction = true) := by
  simp only [validate_selection_geometry]
  split
  · exact Or.inl rfl
  · split
    · exact Or.inr (Or.inl ⟨rfl, rfl⟩)
    · split
      · rename_i hr
        split
        · split
          · split
            · refine Or.inr (Or.inr ⟨rfl, ?_⟩)
              exact validate_geometry_loop_all_lines (Prod.ext hr.1 hr.2)
            · exact Or.inl rfl
          · exact Or.inl rfl
        · exact Or.inl rfl
      · exact Or.inl rfl

/-- No event of _validate_selection_geometry is a document mutation. -/
lemma validate_selection_geometry_nonmut (w : ICWorld) (sel : List SGeo) :
    ∀ e ∈ (validate_selection_geometry w sel).2, isMutation e = false := by
  rcases validate_selection_geometry_spec w sel with h | ⟨h, _⟩ | ⟨h, _⟩ <;>
    rw [h] <;> intro e he <;> simp at he <;> subst he <;> rfl

/-- _validate_selection either succeeds with exactly the geometry-check events
or fails with those events followed by a single non-mutating event. -/
lemma validate_selection_spec (w : ICWorld) :
    ((validate_selection w).1 = true
      ∧ (validate_selection w).2 = (validate_selection_geometry w w.selection).2)
    ∨ ((validate_selection w).1 = false
      ∧ ∃ t, (validate_selection w).2 = (validate_selection_geometry w w.selection).2 ++ [t]
          ∧ isMutation t = false) := by
  simp only [validate_selection]
  split
  · exact Or.inr ⟨rfl, Ev.notify "Invalid Geometry", rfl, rfl⟩
  · split
    · exact Or.inr ⟨rfl, _, rfl, rfl⟩
    · split
      · exact Or.inr ⟨rfl, Ev.notify "Invalid Constraint", rfl, rfl⟩
      · split
        · exact Or.inr ⟨rfl, Ev.notify "Invalid Constraint", rfl, rfl⟩
        · exact Or.inl ⟨rfl, rfl⟩

/-- No event of _validate_selection is a document mutation. -/
lemma validate_selection_nonmut (w : ICWorld) :
    ∀ e ∈ (validate_selection w).2, isMutation e = false := by
  intro e he
  have hg := validate_selection_geometry_nonmut w w.selection
  rcases validate_selection_spec w with ⟨_, h2⟩ | ⟨_, t, h2, ht⟩
  · exact hg e (h2 ▸ he)
  · rw [h2, List.mem_append] at he
    rcases he with he | he
    · exact hg e he
    · simp at he; subst he; exact ht

/-- The events of _get_arc_parameters are neither mutations nor dialogs. -/
lemma get_arc_parameters_events (w : ICWorld) (d : GeoDict) :
    ∀ e ∈ (get_arc_parameters w d).2.1, isMutation e = false ∧ isNotify e = false := by
  unfold get_arc_parameters
  split
  · intro e he; simp at he; subst he; exact ⟨rfl, rfl⟩
  · intro e he; simp at he; subst he; exact ⟨rfl, rfl⟩
  · split
    · split
      · split
        · intro e he; simp at he; subst he; exact ⟨rfl, rfl⟩
        · intro e he; simp at he
      · intro e he; simp at he
    · intro e he; simp at he; subst he; exact ⟨rfl, rfl⟩

/-- The events of _reconstrain are neither mutations nor dialogs. -/
lemma reconstrain_events (d : GeoDict) (vi : Int) :
    ∀ e ∈ reconstrain d vi, isMutation e = false ∧ isNotify e = false := by
  unfold reconstrain
  split
  · intro e he; simp at he
  · split
    · intro e he; simp at he
    · split
      · intro e he; simp at he; subst he; exact ⟨rfl, rfl⟩
      · intro e he; simp at he; subst he; exact ⟨rfl, rfl⟩

/-- The finishing sequence of Activated never opens an error dialog. -/
lemma finishArc_nonnotify (w : ICWorld) (d : GeoDict) (vi : Int) :
    ∀ e ∈ finishArc w d vi, isNotify e = false := by
  have hg := get_arc_parameters_events w d
  unfold finishArc
  rcases hge : get_arc_parameters w d with ⟨d2, evs, b⟩
  rw [hge] at hg
  cases b
  · intro e he
    exact (hg e he).2
  · intro e he
    have he' : e ∈ evs ++ [Ev.addGeometry false, Ev.recompute] ++
        reconstrain (dset d2 "new arc" (some 0)) vi := he
    rw [List.append_assoc, List.mem_append, List.mem_append] at he'
    rcases he' with he' | he' | he'
    · exact (hg e he').2
    · simp at he'; rcases he' with rfl | rfl <;> rfl
    · exact (reconstrain_events _ vi e he').2

/-- Every mutation in the finishing sequence of Activated is followed by a
recompute. -/
lemma finishArc_allRec (w : ICWorld) (d : GeoDict) (vi : Int) :
    allRec (finishArc w d vi) = true := by
  have hg := get_arc_parameters_events w d
  unfold finishArc
  rcases hge : get_arc_parameters w d with ⟨d2, evs, b⟩
  rw [hge] at hg
  cases b
  · exact allRec_of_no_mutation (fun e he => (hg e he).1)
  · show allRec (evs ++ [Ev.addGeometry false, Ev.recompute] ++
        reconstrain (dset d2 "new arc" (some 0)) vi) = true
    rw [List.append_assoc]
    refine allRec_append_left_nonmut (fun e he => (hg e he).1) ?_
    refine allRec_append_right_nonmut (by decide)
      (fun e he => (reconstrain_events _ vi e he).1)

/-- When the tangent dictionary stores None under arc, the finishing sequence
of Activated is the AttributeError raised at line 128. -/
lemma finishArc_arc_none (w : ICWorld) {d : GeoDict} (vi : Int)
    (h : dget d "arc" = some none) :
    finishArc w d vi = [Ev.raiseExc "AttributeError: NoneType has no attribute get_points"] := by
  unfold finishArc get_arc_parameters
  rw [h]

/-- Each run of the post-validation part of Activated either performs no
mutation, or performs no error dialog, has a non-negative constrained vertex
index, and runs with an arc in the tangent dictionary. -/
lemma insertAfter_cases (w : ICWorld) (sel : List SGeo) :
    (∀ e ∈ insertAfterValidation w sel, isMutation e = false)
    ∨ ((∀ e ∈ insertAfterValidation w sel, isNotify e = false)
        ∧ 0 ≤ get_constrained_vertex w.bindingFirstPos w.bindingSecondPos
        ∧ ∃ i, dget (get_tangents w sel) "arc" = some (some i)) := by
  simp only [insertAfterValidation]
  split
  · left; intro e he
    simp at he; subst he; rfl
  · rename_i harc
    left; intro e he
    rw [finishArc_arc_none w (-1) harc] at he
    simp at he; subst he; rfl
  · rename_i i harc
    split
    · left; intro e hm
      simp at hm; subst hm; rfl
    · left; intro e hm
      simp at hm
    · split
      · left; intro e hm
        simp at hm; subst hm; rfl
      · rename_i hvi
        right
        refine ⟨?_, by omega, i, harc⟩
        refine List.forall_mem_append.mpr ⟨?_, finishArc_nonnotify w _ _⟩
        refine List.forall_mem_append.mpr ⟨?_, by decide⟩
        refine List.forall_mem_append.mpr ⟨?_, by decide⟩
        refine List.forall_mem_append.mpr ⟨?_, by decide⟩
        intro e hm
        rcases List.mem_map.mp hm with ⟨a, _, rfl⟩
        rfl

/-- Every mutation of the post-validation part of Activated is followed by a
recompute. -/
lemma insertAfter_allRec (w : ICWorld) (sel : List SGeo) :
    allRec (insertAfterValidation w sel) = true := by
  simp only [insertAfterValidation]
  split
  · decide
  · exact finishArc_allRec w _ _
  · split
    · decide
    · decide
    · split
      · decide
      · refine allRec_append ?_ (finishArc_allRec w _ _)
        refine allRec_append ?_ (by decide)
        refine allRec_append ?_ (by decide)
        exact allRec_append_recompute (by simp) (by decide)

/-- A successful _validate_selection implies the geometry check succeeded. -/
lemma validate_selection_true_geometry (w : ICWorld)
    (h : (validate_selection w).1 = true) :
    (validate_selection_geometry w w.selection).1 = true := by
  by_contra hc
  have hfalse : (validate_selection_geometry w w.selection).1 = false := by
    cases hx : (validate_selection_geometry w w.selection).1
    · rfl
    · exact absurd hx hc
  simp only [validate_selection] at h
  rw [if_pos hfalse] at h
  simp at h

/-- Each run of InsertCurve.Activated either mutates nothing, or opens no
error dialog and runs with a non-negative constrained vertex index. -/
lemma insert_trace_cases (w : ICWorld) :
    muts (insertCurveActivated w) = []
    ∨ (notifies (insertCurveActivated w) = []
        ∧ 0 ≤ get_constrained_vertex w.bindingFirstPos w.bindingSecondPos) := by
  simp only [insertCurveActivated]
  split
  · left; rfl
  · split
    · left
      exact muts_nil_of_no_mutation (validate_selection_nonmut w)
    · rename_i hvf
      have hvt : (validate_selection w).1 = true := by
        cases hx : (validate_selection w).1
        · exact absurd hx hvf
        · rfl
      rcases insertAfter_cases w w.selection with hA | ⟨hN, hvi, i, harc⟩
      · left
        apply muts_nil_of_no_mutation
        intro e he
        rw [List.mem_append] at he
        rcases he with he | he
        · exact validate_selection_nonmut w e he
        · exact hA e he
      · right
        refine ⟨?_, hvi⟩
        apply notifies_nil_of_no_notify
        intro e he
        rw [List.mem_append] at he
        rcases he with he | he
        · rcases validate_selection_spec w with ⟨_, h2⟩ | ⟨hfalse, _⟩
          · rw [h2] at he
            rcases validate_selection_geometry_spec w w.selection with
              hg | ⟨hg, hgf⟩ | ⟨hg, hlines⟩
            · rw [hg] at he; simp at he
            · rw [validate_selection_true_geometry w hvt] at hgf; simp at hgf
            · have hnone := get_tangents_all_lines w (fun g hgm => (hlines g hgm).1)
              rw [harc] at hnone
              simp at hnone
          · rw [hfalse] at hvt; simp at hvt
        · exact hN e he

/-- Every mutation of InsertCurve.Activated is followed by a recompute. -/
lemma insert_allRec (w : ICWorld) : allRec (insertCurveActivated w) = true := by
  simp only [insertCurveActivated]
  split
  · decide
  · split
    · exact allRec_of_no_mutation (validate_selection_nonmut w)
    · exact allRec_append_left_nonmut (validate_selection_nonmut w) (insertAfter_allRec w _)

/-- When the tangent dictionary holds an arc and a resolved end tangent but
the constrained vertex index is negative, the post-validation part of
Activated is exactly the Invalid Constraint dialog. -/
lemma insertAfter_invalid_constraint (w : ICWorld) {sel : List SGeo} {i j : Nat}
    (harc : dget (get_tangents w sel) "arc" = some (some i))
    (hend : dget (get_tangents w sel) "end_tangent" = some (some j))
    (hvi : get_constrained_vertex w.bindingFirstPos w.bindingSecondPos < 0) :
    insertAfterValidation w sel = [Ev.notify "Invalid Constraint"] := by
  simp only [insertAfterValidation, harc, hend]
  rw [if_pos hvi]

/-- The selection loop of GenerateLoft.Activated aborts exactly when some
object has an invalid TypeId, and otherwise partitions the selection. -/
lemma generateLoftSelect_spec (sel a t : List LoftObj) :
    generateLoftSelect sel a t =
      if sel.any loftInvalidType then none
      else some (a ++ sel.filter (fun o => o.typeId == "Part::Part2DObjectPython"),
                 t ++ sel.filter (fun o => o.typeId == "Sketcher::SketchObjectPython")) := by
  induction sel generalizing a t with
  | nil => simp [generateLoftSelect]
  | cons o rest ih =>
      by_cases hbad : loftInvalidType o = true
      · simp [generateLoftSelect, hbad]
      · have hbad' : loftInvalidType o = false := by
          cases hx : loftInvalidType o
          · rfl
          · exact absurd hx hbad
        by_cases hp : (o.typeId == "Part::Part2DObjectPython") = true
        · have hp' : o.typeId = "Part::Part2DObjectPython" := by simpa using hp
          have hs : (o.typeId == "Sketcher::SketchObjectPython") = false := by
            simp [hp']
          simp [generateLoftSelect, hbad', hp, ih, hs, List.filter_cons,
            List.append_assoc]
        · have hp2 : (o.typeId == "Part::Part2DObjectPython") = false := by
            cases hx : (o.typeId == "Part::Part2DObjectPython")
            · rfl
            · exact absurd hx hp
          have hs : (o.typeId == "Sketcher::SketchObjectPython") = true := by
            rcases hx : (o.typeId == "Sketcher::SketchObjectPython")
            · exfalso
              have hor := hbad'
              simp only [loftInvalidType, Bool.not_eq_false'] at hor
              rw [hp2, hx] at hor
              simp at hor
            · rfl
          simp [generateLoftSelect, hbad', hp2, hs, ih, List.filter_cons,
            List.append_assoc]

/-- Full characterization of GenerateLoft.Activated. -/
lemma generateLoftActivated_spec (sel af tf : List LoftObj) (le : Bool) :
    generateLoftActivated sel af tf le =
      (if sel.any loftInvalidType then ([Ev.printMsg loftErrorMsg], none)
       else
        ((if le = false then [Ev.showDialog, Ev.raiseExc "AttributeError: Lofts"]
          else [Ev.showDialog, Ev.addObject "App::DocumentObjectGroup" "LoftGroup",
                 Ev.externalCall "regenerate", Ev.recompute]),
          some (sel.filter (fun o => o.typeId == "Part::Part2DObjectPython") ++ af,
                sel.filter (fun o => o.typeId == "Sketcher::SketchObjectPython") ++ tf))) := by
  by_cases h : sel.any loftInvalidType = true
  · simp [generateLoftActivated, generateLoftSelect_spec, h]
  · have h' : sel.any loftInvalidType = false := by
      cases hx : sel.any loftInvalidType
      · rfl
      · exact absurd hx h
    cases le <;> simp [generateLoftActivated, generateLoftSelect_spec, h']

/-- The only direct document mutation of add_1_cell_box is the initial group
addObject, performed before the selection is validated. -/
lemma box_muts (bsel : List BoxSelObj) :
    muts (add_1_cell_box bsel)
      = [Ev.addObject "App::DocumentObjectGroupPython" "BoxCulvert1Cell"] := by
  unfold add_1_cell_box
  split
  · rfl
  · split
    · split
      · split
        · rfl
        · rfl
      · rfl
    · rfl

/-- add_1_cell_box follows its addObject with a recompute exactly on the runs
that reach the sweep. -/
lemma box_allRec (bsel : List BoxSelObj) :
    allRec (add_1_cell_box bsel) = boxCompletes bsel := by
  unfold add_1_cell_box boxCompletes
  split
  · rfl
  · split
    · rename_i t heq
      split
      · rename_i ht
        split
        · rename_i hg
          rw [ht, hg]; rfl
        · rename_i h1 h2 hg
          rw [ht, hg]; rfl
      · rename_i ht
        have ht' : (t == "Alignment") = false := by
          cases hx : (t == "Alignment")
          · rfl
          · exact absurd hx ht
        rw [ht']; rfl
    · rfl

/-- _validate_tree on a document that already has a Lofts group returns the
first one and changes nothing. -/
lemma validate_tree_found {d2 : Doc} {p : DocObject} {ps : List DocObject}
    (h : findObjects d2 "App::DocumentObjectGroup" "Lofts" = p :: ps) :
    validate_tree d2 = (d2, p, ([] : List Ev)) := by
  simp [validate_tree, h]

/-! ## Claim theorems -/

/-- Claim C1: the claim states that an InsertCurve.Activated run whose
validated selection contains an arc, whose opposite back tangent resolves,
and whose binding constraint yields a non-negative constrained vertex index
completes the whole insertion sequence without raising an exception.  The
code cannot: Activated stores the created arc under the dictionary key
new arc (line 103) while _reconstrain reads the key new_arc (line 340), so
the run raises KeyError at the reconstraining step.  This theorem evaluates
the embedded command at such a run (world wC1) and exhibits the raise. -/
theorem C1_activated_arc_path_raises :
    (∃ g ∈ wC1.selection, g.gtype = GeoType.arcOfCircle)
    ∧ (validate_selection wC1).1 = true
    ∧ dget (get_tangents wC1 wC1.selection) "arc" = some (some 2)
    ∧ dget (get_tangents wC1 wC1.selection) "end_tangent" = some (some 5)
    ∧ 0 ≤ get_constrained_vertex wC1.bindingFirstPos wC1.bindingSecondPos
    ∧ Ev.raiseExc "KeyError: new_arc" ∈ insertCurveActivated wC1 := by
  exact ⟨⟨⟨GeoType.arcOfCircle, false, 2⟩, by decide, rfl⟩, by decide, by decide,
    by decide, by decide, by decide⟩

/-- Claim C2, counterexample: the claim states that every command invocation
reporting an error during selection validation leaves the document in its
prior state.  An add_1_cell_box run with an empty selection reports the
error and has already added the BoxCulvert1Cell group object. -/
theorem C2_counterexample_box_mutates_before_error :
    Ev.printMsg "No alignment selected" ∈ add_1_cell_box []
    ∧ muts (add_1_cell_box []) ≠ [] := by
  decide

/-- Claim C2, amended: an InsertCurve.Activated run that opens an error
dialog performs no document mutation; a GenerateLoft.Activated run that
prints an error performs no document mutation; an add_1_cell_box run always
performs exactly its initial group addObject as its only direct mutation, so
its error-aborting runs leave that object in the document. -/
theorem C2_amended_error_abort (w : ICWorld) (sel af tf : List LoftObj) (le : Bool)
    (bsel : List BoxSelObj) :
    (muts (insertCurveActivated w) = [] ∨ notifies (insertCurveActivated w) = [])
    ∧ (muts (generateLoftActivated sel af tf le).1 = []
        ∨ (generateLoftActivated sel af tf le).1.filter isPrint = [])
    ∧ muts (add_1_cell_box bsel)
        = [Ev.addObject "App::DocumentObjectGroupPython" "BoxCulvert1Cell"] := by
  refine ⟨?_, ?_, box_muts bsel⟩
  · rcases insert_trace_cases w with h | ⟨h, _⟩
    · exact Or.inl h
    · exact Or.inr h
  · rw [generateLoftActivated_spec]
    by_cases h : sel.any loftInvalidType = true
    · rw [if_pos h]
      exact Or.inl rfl
    · rw [if_neg h]
      cases le
      · exact Or.inr rfl
      · exact Or.inr rfl

/-- Claim C3: _validate_selection_geometry returns True exactly for the empty
selection or a two-element selection of construction line segments and arcs
that are not both arcs. -/
theorem C3_validate_selection_geometry_iff (w : ICWorld) (sel : List SGeo) :
    (validate_selection_geometry w sel).1 = true ↔
      (sel = []
        ∨ (sel.length = 2
            ∧ (∀ g ∈ sel, (g.gtype = GeoType.lineSegment ∧ g.construction = true)
                ∨ g.gtype = GeoType.arcOfCircle)
            ∧ ¬(∀ g ∈ sel, g.gtype = GeoType.arcOfCircle))) := by
  match sel with
  | [] => simp [validate_selection_geometry]
  | [a] => simp [validate_selection_geometry]
  | a :: b :: c :: rest => simp [validate_selection_geometry]
  | [a, b] =>
      rcases a with ⟨ta, ca, ia⟩
      rcases b with ⟨tb, cb, ib⟩
      cases ta <;> cases tb <;> cases ca <;> cases cb <;>
        simp [validate_selection_geometry, validate_geometry_loop]
      all_goals try split_ifs
      all_goals simp_all

/-- Claim C4: _notify_error opens a modal critical dialog titled by the tag
followed by Error, with the fixed message of the tag, and the message
UNDEFINED ERROR for every other tag. -/
theorem C4_notify_error_table :
    notify_error "Selection" = ⟨"Selection Error", selectionMsg⟩
    ∧ notify_error "Attached Geometry" = ⟨"Attached Geometry Error", attachedGeometryMsg⟩
    ∧ notify_error "Invalid Geometry" = ⟨"Invalid Geometry Error", invalidGeometryMsg⟩
    ∧ notify_error "Invalid Constraint" = ⟨"Invalid Constraint Error", invalidConstraintMsg⟩
    ∧ notify_error "Not Coincident" = ⟨"Not Coincident Error", notCoincidentMsg⟩
    ∧ notify_error "No Arc" = ⟨"No Arc Error", noArcMsg⟩
    ∧ (∀ tag : String,
        tag ∉ (["Selection", "Attached Geometry", "Invalid Geometry",
          "Invalid Constraint", "Not Coincident", "No Arc"] : List String) →
        notify_error tag = ⟨tag ++ " Error", "UNDEFINED ERROR"⟩) := by
  refine ⟨rfl, rfl, rfl, rfl, rfl, rfl, ?_⟩
  intro tag h
  simp only [List.mem_cons, List.mem_singleton, not_or] at h
  obtain ⟨h1, h2, h3, h4, h5, h6⟩ := h
  simp [notify_error, h1, h2, h3, h4, h5, h6]

/-- Witness for C4 at a tag outside the table. -/
theorem C4_notify_error_table_witness :
    notify_error "Bogus" = ⟨"Bogus Error", "UNDEFINED ERROR"⟩ :=
  C4_notify_error_table.2.2.2.2.2.2 "Bogus" (by decide)

/-- Claim C5: the claim states that examine_file sniffs an openable file and
fills the delimiter field and headers checkbox.  The code cannot: line 140
calls the file object (stream(1024)) instead of reading from it, raising
TypeError for every openable path before the sniffer runs, so the fields are
never set; the unopenable path shows the modal dialog and leaves the fields
unchanged, as claimed.  This theorem evaluates both runs. -/
theorem C5_examine_file_raises :
    examine_file (fun _ => true) ⟨"alignment.csv", "", false⟩
      = (⟨"alignment.csv", "", false⟩,
          [Ev.raiseExc "TypeError: TextIOWrapper object is not callable"])
    ∧ examine_file (fun _ => false) ⟨"missing.csv", "", false⟩
      = (⟨"missing.csv", "", false⟩,
          [Ev.modalDialog "Unable to open file " "missing.csv"]) :=
  ⟨rfl, rfl⟩

/-- Claim C6: GenerateLoft.Activated aborts before the dialog and before any
loft creation exactly when some pre-selected object has an invalid TypeId,
and otherwise puts every Part::Part2DObjectPython selection in the alignment
list and every Sketcher::SketchObjectPython selection in the template list.
-/
theorem C6_generate_loft_selection_gate (sel af tf : List LoftObj) (le : Bool) :
    (generateLoftActivated sel af tf le).1
      = (if sel.any loftInvalidType then [Ev.printMsg loftErrorMsg]
         else if le = false then [Ev.showDialog, Ev.raiseExc "AttributeError: Lofts"]
         else [Ev.showDialog, Ev.addObject "App::DocumentObjectGroup" "LoftGroup",
                Ev.externalCall "regenerate", Ev.recompute])
    ∧ (generateLoftActivated sel af tf le).2
      = (if sel.any loftInvalidType then none
         else some (sel.filter (fun o => o.typeId == "Part::Part2DObjectPython") ++ af,
                    sel.filter (fun o => o.typeId == "Sketcher::SketchObjectPython") ++ tf)) := by
  rw [generateLoftActivated_spec]
  by_cases h : sel.any loftInvalidType = true
  · rw [if_pos h, if_pos h, if_pos h]
    exact ⟨rfl, rfl⟩
  · rw [if_neg h, if_neg h, if_neg h]
    exact ⟨rfl, rfl⟩

/-- Claim C7, counterexample: the claim states every direct document mutation
in a command handler is followed by a recompute before the handler returns.
The add_1_cell_box run with an empty selection performs its group addObject
and returns after the error message with no recompute. -/
theorem C7_counterexample_box_no_recompute :
    Ev.addObject "App::DocumentObjectGroupPython" "BoxCulvert1Cell" ∈ add_1_cell_box []
    ∧ allRec (add_1_cell_box []) = false := by
  decide

/-- Claim C7, amended: in InsertCurve.Activated and GenerateLoft.Activated
every direct document mutation is followed by a recompute before the handler
returns; in add_1_cell_box this holds exactly for the runs that reach the
sweep, while the selection-validation aborts leave the initial addObject
without a recompute. -/
theorem C7_amended_mutations_recomputed (w : ICWorld) (sel af tf : List LoftObj)
    (le : Bool) (bsel : List BoxSelObj) :
    allRec (insertCurveActivated w) = true
    ∧ allRec (generateLoftActivated sel af tf le).1 = true
    ∧ allRec (add_1_cell_box bsel) = boxCompletes bsel := by
  refine ⟨insert_allRec w, ?_, box_allRec bsel⟩
  rw [generateLoftActivated_spec]
  by_cases h : sel.any loftInvalidType = true
  · rw [if_pos h]
    show allRec [Ev.printMsg loftErrorMsg] = true
    decide
  · rw [if_neg h]
    cases le
    · show allRec [Ev.showDialog, Ev.raiseExc "AttributeError: Lofts"] = true
      decide
    · show allRec [Ev.showDialog, Ev.addObject "App::DocumentObjectGroup" "LoftGroup",
        Ev.externalCall "regenerate", Ev.recompute] = true
      decide

/-- Claim C8: _validate_tree creates the Lofts group when none exists and
returns the existing one otherwise, so a second call returns the same group
with no events and the document holds exactly one Lofts group after any call
that started from none. -/
theorem C8_validate_tree_idempotent (d : Doc) :
    validate_tree (validate_tree d).1
      = ((validate_tree d).1, (validate_tree d).2.1, ([] : List Ev))
    ∧ (findObjects (validate_tree d).1 "App::DocumentObjectGroup" "Lofts").length
      = (if (findObjects d "App::DocumentObjectGroup" "Lofts").length = 0 then 1
         else (findObjects d "App::DocumentObjectGroup" "Lofts").length) := by
  rcases hp : findObjects d "App::DocumentObjectGroup" "Lofts" with _ | ⟨p, ps⟩
  · have hd1 : (validate_tree d).1
        = ⟨d.objects ++ [⟨"App::DocumentObjectGroup", "Lofts", d.nextId⟩], d.nextId + 1⟩ := by
      simp [validate_tree, hp, docAddObject]
    have ho : (validate_tree d).2.1 = ⟨"App::DocumentObjectGroup", "Lofts", d.nextId⟩ := by
      simp [validate_tree, hp, docAddObject]
    have hfind : findObjects (validate_tree d).1 "App::DocumentObjectGroup" "Lofts"
        = [⟨"App::DocumentObjectGroup", "Lofts", d.nextId⟩] := by
      rw [hd1]
      unfold findObjects at hp ⊢
      simp only [List.filter_append]
      rw [hp]
      rfl
    constructor
    · rw [validate_tree_found hfind, ho]
    · rw [hfind]
      rfl
  · have hd1 : (validate_tree d).1 = d := by
      simp [validate_tree, hp]
    have ho : (validate_tree d).2.1 = p := by
      simp [validate_tree, hp]
    constructor
    · rw [hd1, ho]
      exact validate_tree_found hp
    · rw [hd1, hp]
      simp

/-- Claim C9: _sort_vectors returns the two input vectors, swapped exactly
when the z component of the cross product is strictly positive, and is
idempotent. -/
theorem C9_sort_vectors_swap_iff_idempotent (p : Vec3 × Vec3) :
    sort_vectors p = (if (cross p.1 p.2).z > 0 then (p.2, p.1) else p)
    ∧ sort_vectors (sort_vectors p) = sort_vectors p := by
  constructor
  · simp [sort_vectors]
  · by_cases h : (cross p.1 p.2).z > 0
    · have h2 : ¬((cross p.2 p.1).z > 0) := by
        rw [cross_z_antisymm]
        linarith
      simp [sort_vectors, h, h2]
    · simp [sort_vectors, h]

/-- Claim C10: _get_constrained_vertex returns FirstPos minus one when
FirstPos is nonzero and SecondPos minus one otherwise; the result is
negative exactly when the position used is zero; and in that case Activated
opens the Invalid Constraint dialog and mutates nothing. -/
theorem C10_get_constrained_vertex_spec :
    (∀ fp sp : Nat,
      get_constrained_vertex fp sp = (if fp = 0 then (sp : Int) else (fp : Int)) - 1)
    ∧ (∀ fp sp : Nat,
      get_constrained_vertex fp sp < 0 ↔ (if fp = 0 then sp else fp) = 0)
    ∧ (∀ (w : ICWorld) (i j : Nat),
        w.objectSelected = true →
        (validate_selection w).1 = true →
        dget (get_tangents w w.selection) "arc" = some (some i) →
        dget (get_tangents w w.selection) "end_tangent" = some (some j) →
        get_constrained_vertex w.bindingFirstPos w.bindingSecondPos < 0 →
        muts (insertCurveActivated w) = []
          ∧ Ev.notify "Invalid Constraint" ∈ insertCurveActivated w) := by
  refine ⟨?_, ?_, ?_⟩
  · intro fp sp
    by_cases h : fp = 0 <;> simp [get_constrained_vertex, h]
  · intro fp sp
    by_cases h : fp = 0 <;> simp [get_constrained_vertex, h]
  · intro w i j hsel hval harc hend hvi
    have hiav := insertAfter_invalid_constraint w harc hend hvi
    have htrace : insertCurveActivated w
        = (validate_selection w).2 ++ insertAfterValidation w w.selection := by
      simp only [insertCurveActivated]
      rw [if_neg (by simp [hsel]), if_neg (by simp [hval])]
    constructor
    · rw [htrace, hiav]
      apply muts_nil_of_no_mutation
      intro e he
      rw [List.mem_append] at he
      rcases he with he | he
      · exact validate_selection_nonmut w e he
      · simp at he; subst he; rfl
    · rw [htrace, hiav]
      exact List.mem_append_right _ (by simp)

/-- Witness for C10 at the concrete world wC10, where both positions of the
binding constraint are zero. -/
theorem C10_get_constrained_vertex_spec_witness :
    muts (insertCurveActivated wC10) = []
      ∧ Ev.notify "Invalid Constraint" ∈ insertCurveActivated wC10 :=
  C10_get_constrained_vertex_spec.2.2 wC10 2 5 (by decide) (by decide) (by decide)
    (by decide) (by decide)
